import Mathlib

/-!
Verification development for the Jobly job-board backend.

We shallowly embed the SQL-fragment builder (`sqlForPartialUpdate`), the
boolean string parser (`parseBool`), and the dynamic filter-query assembly
of `Company.findAll` / `Job.findAll`, together with the query-building
portions of the `create` and `update` model methods.  JavaScript values
that flow through these functions are modelled by `JSVal`; the store
(database) is an external collaborator, so database responses are passed
in as explicit inputs and emitted SQL text is modelled as strings that
reproduce the source's template literals character for character.
-/

namespace Jobly

/-- A JavaScript value as far as the embedded code can observe it:
`undefined`, `null`, booleans, numbers (the code only compares and binds
them, so integers suffice) and strings.  Strict equality `===` on these
values is Lean equality. -/
inductive JSVal where
  | undefined
  | null
  | bool (b : Bool)
  | num (n : Int)
  | str (s : String)
deriving DecidableEq

/-- The error classes raised by the embedded code: `BadRequestError`,
`NotFoundError`, and the JavaScript `TypeError` raised by property access
on `undefined`. -/
inductive JSError where
  | badRequest
  | notFound
  | typeError
deriving DecidableEq

/-- Result of `sqlForPartialUpdate`: the `setCols` SQL fragment and the
ordered parameter list. -/
structure SqlUpdate where
  setCols : String
  values : List JSVal
deriving DecidableEq

/-- Column-name resolution `jsToSql[colName] || colName` from
`helpers/sql.js`: JavaScript `||` falls back on any falsy value, i.e. on a
missing key (`undefined`) and on the empty string. -/
def resolveCol (jsToSql : List (String × String)) (colName : String) : String :=
  match List.lookup colName jsToSql with
  | some a => if a = "" then colName else a
  | none => colName

/-- `sqlForPartialUpdate(dataToUpdate, jsToSql)` from `helpers/sql.js`.
`dataToUpdate` is an ordered mapping (JavaScript object in insertion
order); `jsToSql` is `none` when the caller omits the argument, in which
case JavaScript evaluates `undefined[colName]` and raises a `TypeError`
(after the empty-data guard, which runs first). -/
def sqlForPartialUpdate (dataToUpdate : List (String × JSVal))
    (jsToSql : Option (List (String × String))) : Except JSError SqlUpdate :=
  let keys := dataToUpdate.map Prod.fst
  if keys.length = 0 then Except.error JSError.badRequest
  else
    match jsToSql with
    | none => Except.error JSError.typeError
    | some m =>
      let cols := keys.mapIdx (fun idx colName =>
        "\"" ++ resolveCol m colName ++ "\"=$" ++ toString (idx + 1))
      Except.ok { setCols := String.intercalate ", " cols,
                  values := dataToUpdate.map Prod.snd }

/-- `parseBool(value)` from `helpers/utils.js`: strict comparison against
the four recognized string literals, `null` (here `none`) otherwise. -/
def parseBool (value : JSVal) : Option Bool :=
  if value = JSVal.str "true" ∨ value = JSVal.str "1" then some true
  else if value = JSVal.str "false" ∨ value = JSVal.str "0" then some false
  else none

/-- Number of occurrences of a character in a string. -/
def countChar (c : Char) (s : String) : Nat :=
  (s.toList.filter (fun x => x = c)).length

/-- One step of the placeholder scanner: the state carries, when a `$`
has been seen, the number read so far and whether at least one digit
followed the `$`. -/
def phStep : Option (Nat × Bool) × List Nat → Char → Option (Nat × Bool) × List Nat
  | (none, out), c => if c = '$' then (some (0, false), out) else (none, out)
  | (some (acc, seen), out), c =>
    if c.isDigit then (some (10 * acc + (c.toNat - 48), true), out)
    else
      let out := if seen then out ++ [acc] else out
      if c = '$' then (some (0, false), out) else (none, out)

/-- The list of numeric placeholder positions (`$N`) occurring in a SQL
string, in textual order. -/
def placeholderPositions (s : String) : List Nat :=
  match s.toList.foldl phStep (none, []) with
  | (some (acc, seen), out) => if seen then out ++ [acc] else out
  | (none, out) => out

/-- Does the character list `pat` occur at the head of `s`? -/
def startsWithChars : List Char → List Char → Bool
  | [], _ => true
  | _ :: _, [] => false
  | p :: ps, c :: cs => p = c && startsWithChars ps cs

/-- Does the character list `pat` occur anywhere inside `s`? -/
def containsChars (pat : List Char) : List Char → Bool
  | [] => startsWithChars pat []
  | c :: cs => startsWithChars pat (c :: cs) || containsChars pat cs

/-- Modelled from the spec: the store evaluates `ILIKE` with a pattern of
the form `%needle%` (no other pattern metacharacters are produced by this
code) as case-insensitive substring containment. -/
def icontains (needle haystack : String) : Bool :=
  containsChars (needle.toList.map Char.toLower) (haystack.toList.map Char.toLower)

/-- Filter options accepted by `Company.findAll` (`models/company.js`);
absent keys are `undefined` in the source, `none` here. -/
structure CompanyFilters where
  minEmployees : Option Int := none
  maxEmployees : Option Int := none
  nameLike : Option String := none
deriving DecidableEq

/-- Filter options accepted by `Job.findAll` (`models/job.js`).
`hasEquity` is kept as a raw JavaScript value because the source compares
it with `!== undefined && !== false` rather than coercing it. -/
structure JobFilters where
  minSalary : Option Int := none
  hasEquity : JSVal := JSVal.undefined
  titleLike : Option String := none
deriving DecidableEq

/-- The state a `findAll` method has built when it reaches `db.query`:
the `whereExpressions` array, the `queryValues` array and the final SQL
text. -/
structure SqlQuery where
  whereExpressions : List String
  queryValues : List JSVal
  query : String
deriving DecidableEq

/-- The base `SELECT` template literal of `Company.findAll`, verbatim. -/
def companyBaseQuery : String :=
  "SELECT handle,\n                    name,\n                    description,\n                    num_employees AS \"numEmployees\",\n                    logo_url AS \"logoUrl\"\n                 FROM companies"

/-- The base `SELECT` template literal of `Job.findAll`, verbatim. -/
def jobBaseQuery : String :=
  "SELECT id,\n                    title,\n                    salary,\n                    equity,\n                    company_handle\n                 FROM jobs"

/-- A persisted company row (columns touched by the embedded queries). -/
structure CompanyRow where
  handle : String
  name : String
  description : String
  numEmployees : Int
  logoUrl : String
deriving DecidableEq

/-- A persisted job row.  `equity` is a SQL `NUMERIC`, modelled exactly
as a rational. -/
structure JobRow where
  id : Int
  title : String
  salary : Int
  equity : Rat
  company_handle : String
deriving DecidableEq

/-- The `UPDATE` call an `update` method hands to `db.query`: the SET
fragment, the primary-key placeholder text, and the bound parameters. -/
structure UpdateCall where
  setCols : String
  keyPlaceholder : String
  params : List JSVal
deriving DecidableEq

/-- The `INSERT` call a `create` method hands to `db.query`. -/
structure InsertCall where
  sql : String
  params : List JSVal
deriving DecidableEq

namespace Company

/-- Query assembly of `Company.findAll(filters)`: each present filter
pushes its value onto `queryValues` and then pushes a predicate whose
placeholder is the new `queryValues.length`; the `WHERE` clause is
attached only when at least one predicate was emitted, and
`" ORDER BY name"` is always appended. -/
def findAllQuery (filters : CompanyFilters) : SqlQuery :=
  let whereExpressions : List String := []
  let queryValues : List JSVal := []
  let (whereExpressions, queryValues) :=
    match filters.minEmployees with
    | some n =>
      let queryValues := queryValues ++ [JSVal.num n]
      (whereExpressions ++ ["num_employees >= $" ++ toString queryValues.length], queryValues)
    | none => (whereExpressions, queryValues)
  let (whereExpressions, queryValues) :=
    match filters.maxEmployees with
    | some n =>
      let queryValues := queryValues ++ [JSVal.num n]
      (whereExpressions ++ ["num_employees <= $" ++ toString queryValues.length], queryValues)
    | none => (whereExpressions, queryValues)
  let (whereExpressions, queryValues) :=
    match filters.nameLike with
    | some s =>
      let queryValues := queryValues ++ [JSVal.str ("%" ++ s ++ "%")]
      (whereExpressions ++ ["name ILIKE $" ++ toString queryValues.length], queryValues)
    | none => (whereExpressions, queryValues)
  let query := companyBaseQuery
  let query :=
    if whereExpressions.length > 0 then
      query ++ " WHERE " ++ String.intercalate " AND " whereExpressions
    else query
  let query := query ++ " ORDER BY name"
  { whereExpressions := whereExpressions, queryValues := queryValues, query := query }

/-- Modelled from the spec: row-level meaning of the conjunction of
predicates `Company.findAll` emits (`num_employees >= $k`,
`num_employees <= $k`, `name ILIKE '%s%'`), per the spec's store
interface. -/
def companyMatches (filters : CompanyFilters) (r : CompanyRow) : Bool :=
  (match filters.minEmployees with
   | some n => decide (n ≤ r.numEmployees)
   | none => true) &&
  (match filters.maxEmployees with
   | some n => decide (r.numEmployees ≤ n)
   | none => true) &&
  (match filters.nameLike with
   | some s => icontains s r.name
   | none => true)

end Company

/-- Ordering of company rows by the fixed sort key `name`. -/
def companyLe (a b : CompanyRow) : Prop := a.name ≤ b.name

instance : DecidableRel companyLe := fun a b =>
  inferInstanceAs (Decidable (a.name ≤ b.name))

instance : IsTotal CompanyRow companyLe := ⟨fun a b => le_total a.name b.name⟩

instance : IsTrans CompanyRow companyLe := ⟨fun _ _ _ h h' => le_trans h h'⟩

/-- Ordering of job rows by the fixed sort key `title`. -/
def jobLe (a b : JobRow) : Prop := a.title ≤ b.title

instance : DecidableRel jobLe := fun a b =>
  inferInstanceAs (Decidable (a.title ≤ b.title))

instance : IsTotal JobRow jobLe := ⟨fun a b => le_total a.title b.title⟩

instance : IsTrans JobRow jobLe := ⟨fun _ _ _ h h' => le_trans h h'⟩

namespace Company

/-- Modelled from the spec: the store's evaluation of the query
`Company.findAll` emits — rows failing the `WHERE` conjunction are
dropped and `ORDER BY name` sorts ascending. -/
def findAllRows (filters : CompanyFilters) (table : List CompanyRow) : List CompanyRow :=
  List.insertionSort companyLe (table.filter (companyMatches filters))

/-- The duplicate-check query of `Company.create`, verbatim, with its
parameters. -/
def dupCheckCall (handle : JSVal) : String × List JSVal :=
  ("SELECT handle\n           FROM companies\n           WHERE handle = $1", [handle])

/-- The `INSERT` template literal of `Company.create`, verbatim. -/
def insertSql : String :=
  "INSERT INTO companies\n           (handle, name, description, num_employees, logo_url)\n           VALUES ($1, $2, $3, $4, $5)\n           RETURNING handle, name, description, num_employees AS \"numEmployees\", logo_url AS \"logoUrl\""

/-- `Company.create`: the duplicate-check result rows come back from the
external store; a non-empty result raises `BadRequestError`, otherwise
the `INSERT` call is issued. -/
def create (handle name description numEmployees logoUrl : JSVal)
    (dupRows : List Unit) : Except JSError InsertCall :=
  match dupRows with
  | _ :: _ => Except.error JSError.badRequest
  | [] =>
    Except.ok { sql := insertSql,
                params := [handle, name, description, numEmployees, logoUrl] }

/-- `Company.update(handle, data)`: delegates to `sqlForPartialUpdate`
with the company alias map, then appends the primary-key placeholder at
position `values.length + 1` and binds `values` followed by the key. -/
def update (handle : JSVal) (data : List (String × JSVal)) : Except JSError UpdateCall :=
  match sqlForPartialUpdate data
      (some [("numEmployees", "num_employees"), ("logoUrl", "logo_url")]) with
  | Except.error e => Except.error e
  | Except.ok u =>
    Except.ok { setCols := u.setCols,
                keyPlaceholder := "$" ++ toString (u.values.length + 1),
                params := u.values ++ [handle] }

end Company

namespace Job

/-- Query assembly of `Job.findAll(filters)`.  The equity branch guards
with `hasEquity !== undefined && hasEquity !== false` and pushes the
parameterless predicate `equity > 0`. -/
def findAllQuery (filters : JobFilters) : SqlQuery :=
  let whereExpressions : List String := []
  let queryValues : List JSVal := []
  let (whereExpressions, queryValues) :=
    match filters.minSalary with
    | some n =>
      let queryValues := queryValues ++ [JSVal.num n]
      (whereExpressions ++ ["salary >= $" ++ toString queryValues.length], queryValues)
    | none => (whereExpressions, queryValues)
  let whereExpressions :=
    if filters.hasEquity ≠ JSVal.undefined ∧ filters.hasEquity ≠ JSVal.bool false then
      whereExpressions ++ ["equity > 0"]
    else whereExpressions
  let (whereExpressions, queryValues) :=
    match filters.titleLike with
    | some s =>
      let queryValues := queryValues ++ [JSVal.str ("%" ++ s ++ "%")]
      (whereExpressions ++ ["title ILIKE $" ++ toString queryValues.length], queryValues)
    | none => (whereExpressions, queryValues)
  let query := jobBaseQuery
  let query :=
    if whereExpressions.length > 0 then
      query ++ " WHERE " ++ String.intercalate " AND " whereExpressions
    else query
  let query := query ++ " ORDER BY title"
  { whereExpressions := whereExpressions, queryValues := queryValues, query := query }

/-- Modelled from the spec: row-level meaning of the conjunction of
predicates `Job.findAll` emits (`salary >= $k`, `equity > 0`,
`title ILIKE '%s%'`), per the spec's store interface. -/
def jobMatches (filters : JobFilters) (r : JobRow) : Bool :=
  (match filters.minSalary with
   | some n => decide (n ≤ r.salary)
   | none => true) &&
  (if filters.hasEquity ≠ JSVal.undefined ∧ filters.hasEquity ≠ JSVal.bool false then
     decide (0 < r.equity)
   else true) &&
  (match filters.titleLike with
   | some s => icontains s r.title
   | none => true)

/-- Modelled from the spec: the store's evaluation of the query
`Job.findAll` emits — rows failing the `WHERE` conjunction are dropped
and `ORDER BY title` sorts ascending. -/
def findAllRows (filters : JobFilters) (table : List JobRow) : List JobRow :=
  List.insertionSort jobLe (table.filter (jobMatches filters))

/-- The duplicate-check query of `Job.create`, verbatim, with its
parameters (composite key: title plus company handle). -/
def dupCheckCall (title company_handle : JSVal) : String × List JSVal :=
  ("SELECT title, company_handle\n           FROM jobs\n           WHERE title = $1 AND company_handle = $2",
   [title, company_handle])

/-- The `INSERT` template literal of `Job.create`, verbatim — including
the stray double quote after `company_handle` in the `RETURNING` list
present in the source. -/
def insertSql : String :=
  "INSERT INTO jobs\n           (title, salary, equity, company_handle)\n           VALUES ($1, $2, $3, $4)\n           RETURNING id, title, salary, equity, company_handle\""

/-- `Job.create`: non-empty duplicate-check rows raise
`BadRequestError`; otherwise the `INSERT` call is issued. -/
def create (title salary equity company_handle : JSVal)
    (dupRows : List Unit) : Except JSError InsertCall :=
  match dupRows with
  | _ :: _ => Except.error JSError.badRequest
  | [] =>
    Except.ok { sql := insertSql,
                params := [title, salary, equity, company_handle] }

/-- `Job.update(id, data)`: the source calls `sqlForPartialUpdate(data)`
with the `jsToSql` argument omitted (so it is `undefined`, i.e. `none`),
then would append the primary-key placeholder at `values.length + 1`. -/
def update (id : JSVal) (data : List (String × JSVal)) : Except JSError UpdateCall :=
  match sqlForPartialUpdate data none with
  | Except.error e => Except.error e
  | Except.ok u =>
    Except.ok { setCols := u.setCols,
                keyPlaceholder := "$" ++ toString (u.values.length + 1),
                params := u.values ++ [id] }

end Job

end Jobly

namespace Jobly

/-! ## Helper lemmas -/

lemma mem_ite_append {α : Type} {c : Prop} [Decidable c] {a : α} {l l2 : List α}
    (h : a ∈ l) : a ∈ (if c then l ++ l2 else l) := by
  split_ifs
  · exact List.mem_append_left _ h
  · exact h

lemma company_min_expr (xe : Option Int) (nl : Option String) (n : Int) :
    ∃ i, ("num_employees >= $" ++ toString i) ∈
        (Company.findAllQuery { minEmployees := some n, maxEmployees := xe, nameLike := nl }).whereExpressions ∧
      (Company.findAllQuery { minEmployees := some n, maxEmployees := xe, nameLike := nl }).queryValues[i - 1]? =
        some (JSVal.num n) := by
  cases xe <;> cases nl <;> exact ⟨1, List.mem_cons_self _ _, rfl⟩

lemma company_max_expr (me : Option Int) (nl : Option String) (n : Int) :
    ∃ i, ("num_employees <= $" ++ toString i) ∈
        (Company.findAllQuery { minEmployees := me, maxEmployees := some n, nameLike := nl }).whereExpressions ∧
      (Company.findAllQuery { minEmployees := me, maxEmployees := some n, nameLike := nl }).queryValues[i - 1]? =
        some (JSVal.num n) := by
  cases me <;> cases nl
  · exact ⟨1, List.mem_cons_self _ _, rfl⟩
  · exact ⟨1, List.mem_cons_self _ _, rfl⟩
  · exact ⟨2, List.mem_cons_of_mem _ (List.mem_cons_self _ _), rfl⟩
  · exact ⟨2, List.mem_cons_of_mem _ (List.mem_cons_self _ _), rfl⟩

lemma company_name_expr (me xe : Option Int) (s : String) :
    ∃ i, ("name ILIKE $" ++ toString i) ∈
        (Company.findAllQuery { minEmployees := me, maxEmployees := xe, nameLike := some s }).whereExpressions ∧
      (Company.findAllQuery { minEmployees := me, maxEmployees := xe, nameLike := some s }).queryValues[i - 1]? =
        some (JSVal.str ("%" ++ s ++ "%")) := by
  cases me <;> cases xe
  · exact ⟨1, List.mem_cons_self _ _, rfl⟩
  · exact ⟨2, List.mem_append_right _ (List.mem_cons_self _ _), rfl⟩
  · exact ⟨2, List.mem_append_right _ (List.mem_cons_self _ _), rfl⟩
  · exact ⟨3, List.mem_append_right _ (List.mem_cons_self _ _), rfl⟩

lemma job_salary_expr (he : JSVal) (tl : Option String) (n : Int) :
    ∃ i, ("salary >= $" ++ toString i) ∈
        (Job.findAllQuery { minSalary := some n, hasEquity := he, titleLike := tl }).whereExpressions ∧
      (Job.findAllQuery { minSalary := some n, hasEquity := he, titleLike := tl }).queryValues[i - 1]? =
        some (JSVal.num n) := by
  cases tl
  · exact ⟨1, mem_ite_append (List.mem_cons_self _ _), rfl⟩
  · exact ⟨1, List.mem_append_left _ (mem_ite_append (List.mem_cons_self _ _)), rfl⟩

lemma job_title_expr (ms : Option Int) (he : JSVal) (s : String) :
    ∃ i, ("title ILIKE $" ++ toString i) ∈
        (Job.findAllQuery { minSalary := ms, hasEquity := he, titleLike := some s }).whereExpressions ∧
      (Job.findAllQuery { minSalary := ms, hasEquity := he, titleLike := some s }).queryValues[i - 1]? =
        some (JSVal.str ("%" ++ s ++ "%")) := by
  cases ms
  · exact ⟨1, List.mem_append_right _ (List.mem_cons_self _ _), rfl⟩
  · exact ⟨2, List.mem_append_right _ (List.mem_cons_self _ _), rfl⟩

end Jobly

namespace Jobly

/-! ## Claim theorems -/

/-- C1 counterexample: the claim says the builder uses the alias-map entry
whenever one is present, but the source resolves columns with
`jsToSql[colName] || colName`, so a present but empty-string alias entry
is discarded in favour of the key: on `{a: 7}` with alias map `{a: ""}`
the fragment is `"a"=$1`, not `""=$1`. -/
theorem c1_alias_truthiness_counterexample :
    List.lookup "a" [("a", "")] = some "" ∧
    sqlForPartialUpdate [("a", JSVal.num 7)] (some [("a", "")]) =
      Except.ok { setCols := "\"a\"=$1", values := [JSVal.num 7] } ∧
    ("\"a\"=$1" : String) ≠ "\"\"=$1" :=
  ⟨rfl, rfl, by decide⟩

/-- C1 (amended): for every non-empty `dataToUpdate` and every alias map,
`sqlForPartialUpdate` succeeds; `values` is `dataToUpdate`'s values in
iteration order; `setCols` is the comma-join of fragments whose Nth entry
(1-based) is `"column"=$N` where the column is the alias-map entry for the
Nth key if present and non-empty (JavaScript `||` falls back on falsy
values) and the key itself otherwise; the fragment count equals
`values.length`; and on the documented example the output is exactly
`setCols = '"first_name"=$1, "age"=$2'`, `values = ['Aliya', 32]`. -/
theorem c1_partial_update_builder (data : List (String × JSVal))
    (m : List (String × String)) (h : data ≠ []) :
    ∃ u : SqlUpdate,
      sqlForPartialUpdate data (some m) = Except.ok u ∧
      u.values = data.map Prod.snd ∧
      u.setCols = String.intercalate ", "
        ((data.map Prod.fst).mapIdx (fun idx colName =>
          "\"" ++ resolveCol m colName ++ "\"=$" ++ toString (idx + 1))) ∧
      ((data.map Prod.fst).mapIdx (fun idx colName =>
          "\"" ++ resolveCol m colName ++ "\"=$" ++ toString (idx + 1))).length =
        u.values.length ∧
      sqlForPartialUpdate [("firstName", JSVal.str "Aliya"), ("age", JSVal.num 32)]
          (some [("firstName", "first_name")]) =
        Except.ok { setCols := "\"first_name\"=$1, \"age\"=$2",
                    values := [JSVal.str "Aliya", JSVal.num 32] } := by
  refine ⟨{ setCols := _, values := data.map Prod.snd }, ?_, rfl, rfl, ?_, rfl⟩
  · unfold sqlForPartialUpdate
    rw [if_neg (by simpa using h)]
    rfl
  · simp

/-- C1 witness: the amended theorem applied to the documented example. -/
theorem c1_partial_update_builder_witness :
    ∃ u : SqlUpdate,
      sqlForPartialUpdate [("firstName", JSVal.str "Aliya"), ("age", JSVal.num 32)]
          (some [("firstName", "first_name")]) = Except.ok u ∧
      u.values = ([("firstName", JSVal.str "Aliya"), ("age", JSVal.num 32)]).map Prod.snd ∧
      u.setCols = String.intercalate ", "
        ((([("firstName", JSVal.str "Aliya"), ("age", JSVal.num 32)]).map Prod.fst).mapIdx
          (fun idx colName =>
            "\"" ++ resolveCol [("firstName", "first_name")] colName ++ "\"=$" ++ toString (idx + 1))) ∧
      ((([("firstName", JSVal.str "Aliya"), ("age", JSVal.num 32)]).map Prod.fst).mapIdx
          (fun idx colName =>
            "\"" ++ resolveCol [("firstName", "first_name")] colName ++ "\"=$" ++ toString (idx + 1))).length =
        u.values.length ∧
      sqlForPartialUpdate [("firstName", JSVal.str "Aliya"), ("age", JSVal.num 32)]
          (some [("firstName", "first_name")]) =
        Except.ok { setCols := "\"first_name\"=$1, \"age\"=$2",
                    values := [JSVal.str "Aliya", JSVal.num 32] } :=
  c1_partial_update_builder [("firstName", JSVal.str "Aliya"), ("age", JSVal.num 32)]
    [("firstName", "first_name")] (by decide)

/-- C2: with an empty `dataToUpdate`, `sqlForPartialUpdate` raises
`BadRequestError` for every alias map (including an omitted one, since
the guard runs before the alias map is touched), and it never raises
`BadRequestError` on a non-empty `dataToUpdate`. -/
theorem c2_empty_update_guard (jsToSql : Option (List (String × String)))
    (data : List (String × JSVal)) :
    sqlForPartialUpdate [] jsToSql = Except.error JSError.badRequest ∧
    (data ≠ [] → sqlForPartialUpdate data jsToSql ≠ Except.error JSError.badRequest) := by
  constructor
  · rfl
  · intro h
    unfold sqlForPartialUpdate
    rw [if_neg (by simpa using h)]
    cases jsToSql <;> simp

/-- C2 witness: the guard at the empty mapping and its absence at a
one-field mapping. -/
theorem c2_empty_update_guard_witness :
    sqlForPartialUpdate [] (some []) = Except.error JSError.badRequest ∧
    sqlForPartialUpdate [("x", JSVal.num 1)] (some []) ≠ Except.error JSError.badRequest :=
  ⟨(c2_empty_update_guard (some []) [("x", JSVal.num 1)]).1,
   (c2_empty_update_guard (some []) [("x", JSVal.num 1)]).2 (by decide)⟩

/-- C3: `Job.update` calls `sqlForPartialUpdate(data)` with the `jsToSql`
argument omitted, so JavaScript evaluates `undefined[colName]` and every
non-empty payload raises a `TypeError` before any UPDATE is issued —
contradicting the claim, the method's own doc comment and its test.
`Company.update`, by contrast, behaves exactly as claimed: SET clause from
the builder, primary-key placeholder at `values.length + 1`, parameters
`values ++ [key]`. -/
theorem c3_job_update_drops_alias_map :
    Job.update (JSVal.num 1) [("title", JSVal.str "New")] =
      Except.error JSError.typeError ∧
    Company.update (JSVal.str "c1") [("name", JSVal.str "NewCo")] =
      Except.ok { setCols := "\"name\"=$1", keyPlaceholder := "$2",
                  params := [JSVal.str "NewCo", JSVal.str "c1"] } :=
  ⟨rfl, rfl⟩

end Jobly

namespace Jobly

/-- C4 counterexample: with `{hasEquity: true}` as the only filter,
`Job.findAll` appends the predicate `equity > 0` to the conjunction but
appends no value to the parameter list, so "each recognized, present key
appends exactly one predicate and exactly one value" fails: one predicate,
zero values. -/
theorem c4_equity_appends_no_value_counterexample :
    (Job.findAllQuery { minSalary := none, hasEquity := JSVal.bool true, titleLike := none }).whereExpressions = ["equity > 0"] ∧
    (Job.findAllQuery { minSalary := none, hasEquity := JSVal.bool true, titleLike := none }).queryValues = [] ∧
    (Job.findAllQuery { minSalary := none, hasEquity := JSVal.bool true, titleLike := none }).whereExpressions.length ≠
      (Job.findAllQuery { minSalary := none, hasEquity := JSVal.bool true, titleLike := none }).queryValues.length :=
  ⟨rfl, rfl, by decide⟩

set_option maxRecDepth 40000 in
/-- C4 (amended): every value-bearing filter key appends one predicate and
one value with the placeholder equal to the parameter list's length after
the append, while the equity-presence flag appends one parameterless
predicate and no value; hence in every assembled `findAll` query the
placeholder positions are exactly `1, 2, ..., queryValues.length` in
textual order (1-based, strictly increasing, never reused or renumbered,
count equal to the parameter list's length), `Company.findAll` emits as
many predicates as values, and `Job.findAll` emits one extra predicate
exactly when the equity flag applies. -/
theorem c4_placeholder_discipline (cf : CompanyFilters) (jf : JobFilters) :
    placeholderPositions (Company.findAllQuery cf).query =
      List.range' 1 (Company.findAllQuery cf).queryValues.length ∧
    (Company.findAllQuery cf).whereExpressions.length =
      (Company.findAllQuery cf).queryValues.length ∧
    placeholderPositions (Job.findAllQuery jf).query =
      List.range' 1 (Job.findAllQuery jf).queryValues.length ∧
    (Job.findAllQuery jf).whereExpressions.length =
      (Job.findAllQuery jf).queryValues.length +
        (if jf.hasEquity ≠ JSVal.undefined ∧ jf.hasEquity ≠ JSVal.bool false
         then 1 else 0) := by
  obtain ⟨me, xe, nl⟩ := cf
  obtain ⟨ms, he, tl⟩ := jf
  refine ⟨?_, ?_, ?_, ?_⟩
  · cases me <;> cases xe <;> cases nl <;>
      (simp only [Company.findAllQuery]; simp) <;> decide
  · cases me <;> cases xe <;> cases nl <;>
      (simp only [Company.findAllQuery]; simp)
  · cases ms <;> cases tl <;> rcases he with _ | _ | b | n | s <;> (try cases b) <;>
      (simp only [Job.findAllQuery]; simp) <;> decide
  · cases ms <;> cases tl <;> rcases he with _ | _ | b | n | s <;> (try cases b) <;>
      (simp only [Job.findAllQuery]; simp)

/-- C5: an explicit `hasEquity: false` produces exactly the same
`whereExpressions`, `queryValues` and query text as an absent `hasEquity`
(the source guards with `hasEquity !== undefined && hasEquity !== false`),
and hence the same result set on every table. -/
theorem c5_hasEquity_false_is_absent (ms : Option Int) (tl : Option String)
    (table : List JobRow) :
    Job.findAllQuery { minSalary := ms, hasEquity := JSVal.bool false, titleLike := tl } =
      Job.findAllQuery { minSalary := ms, hasEquity := JSVal.undefined, titleLike := tl } ∧
    Job.findAllRows { minSalary := ms, hasEquity := JSVal.bool false, titleLike := tl } table =
      Job.findAllRows { minSalary := ms, hasEquity := JSVal.undefined, titleLike := tl } table := by
  constructor
  · cases ms <;> cases tl <;> rfl
  · rfl

set_option maxRecDepth 40000 in
/-- C6: with no filters, both `findAll` assemblies emit zero predicates,
the query text contains no `WHERE` and is the base query plus the fixed
`ORDER BY`, and the result set is all rows of the table; and every
`findAll` result, filtered or not, is sorted ascending by the entity's
fixed sort key (company name, job title). -/
theorem c6_unfiltered_and_ordered (cf : CompanyFilters) (jf : JobFilters)
    (ctable : List CompanyRow) (jtable : List JobRow) :
    (Company.findAllQuery {}).whereExpressions = [] ∧
    containsChars "WHERE".toList (Company.findAllQuery {}).query.toList = false ∧
    (Company.findAllQuery {}).query = companyBaseQuery ++ " ORDER BY name" ∧
    List.Perm (Company.findAllRows {} ctable) ctable ∧
    List.Sorted companyLe (Company.findAllRows cf ctable) ∧
    (Job.findAllQuery {}).whereExpressions = [] ∧
    containsChars "WHERE".toList (Job.findAllQuery {}).query.toList = false ∧
    (Job.findAllQuery {}).query = jobBaseQuery ++ " ORDER BY title" ∧
    List.Perm (Job.findAllRows {} jtable) jtable ∧
    List.Sorted jobLe (Job.findAllRows jf jtable) := by
  refine ⟨rfl, by decide, rfl, ?_, List.sorted_insertionSort companyLe _,
          rfl, by decide, rfl, ?_, List.sorted_insertionSort jobLe _⟩
  · have hf : ctable.filter (Company.companyMatches {}) = ctable :=
      List.filter_eq_self.mpr (fun a _ => rfl)
    unfold Company.findAllRows
    rw [hf]
    exact List.perm_insertionSort companyLe ctable
  · have hf : jtable.filter (Job.jobMatches {}) = jtable :=
      List.filter_eq_self.mpr (fun a _ => rfl)
    unfold Job.findAllRows
    rw [hf]
    exact List.perm_insertionSort jobLe jtable

/-- C7: every present substring filter emits a case-insensitive `ILIKE`
predicate binding the supplied substring wrapped in `%` wildcards on both
sides, and every present numeric bound filter emits an inclusive
comparison (`>=` for minimums, `<=` for maximums) binding the supplied
value, each at its own placeholder position. -/
theorem c7_filter_operator_shapes (cf : CompanyFilters) (jf : JobFilters) :
    (∀ n, cf.minEmployees = some n →
      ∃ i, ("num_employees >= $" ++ toString i) ∈
          (Company.findAllQuery cf).whereExpressions ∧
        (Company.findAllQuery cf).queryValues[i - 1]? = some (JSVal.num n)) ∧
    (∀ n, cf.maxEmployees = some n →
      ∃ i, ("num_employees <= $" ++ toString i) ∈
          (Company.findAllQuery cf).whereExpressions ∧
        (Company.findAllQuery cf).queryValues[i - 1]? = some (JSVal.num n)) ∧
    (∀ s, cf.nameLike = some s →
      ∃ i, ("name ILIKE $" ++ toString i) ∈
          (Company.findAllQuery cf).whereExpressions ∧
        (Company.findAllQuery cf).queryValues[i - 1]? =
          some (JSVal.str ("%" ++ s ++ "%"))) ∧
    (∀ n, jf.minSalary = some n →
      ∃ i, ("salary >= $" ++ toString i) ∈
          (Job.findAllQuery jf).whereExpressions ∧
        (Job.findAllQuery jf).queryValues[i - 1]? = some (JSVal.num n)) ∧
    (∀ s, jf.titleLike = some s →
      ∃ i, ("title ILIKE $" ++ toString i) ∈
          (Job.findAllQuery jf).whereExpressions ∧
        (Job.findAllQuery jf).queryValues[i - 1]? =
          some (JSVal.str ("%" ++ s ++ "%"))) := by
  obtain ⟨me, xe, nl⟩ := cf
  obtain ⟨ms, he, tl⟩ := jf
  refine ⟨fun n hn => ?_, fun n hn => ?_, fun s hn => ?_, fun n hn => ?_, fun s hn => ?_⟩
  · cases me with
    | none => exact absurd hn (by simp)
    | some a => exact Option.some.inj hn ▸ company_min_expr xe nl a
  · cases xe with
    | none => exact absurd hn (by simp)
    | some a => exact Option.some.inj hn ▸ company_max_expr me nl a
  · cases nl with
    | none => exact absurd hn (by simp)
    | some a => exact Option.some.inj hn ▸ company_name_expr me xe a
  · cases ms with
    | none => exact absurd hn (by simp)
    | some a => exact Option.some.inj hn ▸ job_salary_expr he tl a
  · cases tl with
    | none => exact absurd hn (by simp)
    | some a => exact Option.some.inj hn ▸ job_title_expr ms he a

end Jobly

namespace Jobly

/-- C7 witness: the operator-shape theorem applied to filters with every
key present. -/
theorem c7_filter_operator_shapes_witness :
    (∃ i, ("num_employees >= $" ++ toString i) ∈
        (Company.findAllQuery { minEmployees := some 1, maxEmployees := some 5, nameLike := some "tech" }).whereExpressions ∧
      (Company.findAllQuery { minEmployees := some 1, maxEmployees := some 5, nameLike := some "tech" }).queryValues[i - 1]? =
        some (JSVal.num 1)) ∧
    (∃ i, ("num_employees <= $" ++ toString i) ∈
        (Company.findAllQuery { minEmployees := some 1, maxEmployees := some 5, nameLike := some "tech" }).whereExpressions ∧
      (Company.findAllQuery { minEmployees := some 1, maxEmployees := some 5, nameLike := some "tech" }).queryValues[i - 1]? =
        some (JSVal.num 5)) ∧
    (∃ i, ("name ILIKE $" ++ toString i) ∈
        (Company.findAllQuery { minEmployees := some 1, maxEmployees := some 5, nameLike := some "tech" }).whereExpressions ∧
      (Company.findAllQuery { minEmployees := some 1, maxEmployees := some 5, nameLike := some "tech" }).queryValues[i - 1]? =
        some (JSVal.str ("%" ++ "tech" ++ "%"))) ∧
    (∃ i, ("salary >= $" ++ toString i) ∈
        (Job.findAllQuery { minSalary := some 150, hasEquity := JSVal.undefined, titleLike := some "data" }).whereExpressions ∧
      (Job.findAllQuery { minSalary := some 150, hasEquity := JSVal.undefined, titleLike := some "data" }).queryValues[i - 1]? =
        some (JSVal.num 150)) ∧
    (∃ i, ("title ILIKE $" ++ toString i) ∈
        (Job.findAllQuery { minSalary := some 150, hasEquity := JSVal.undefined, titleLike := some "data" }).whereExpressions ∧
      (Job.findAllQuery { minSalary := some 150, hasEquity := JSVal.undefined, titleLike := some "data" }).queryValues[i - 1]? =
        some (JSVal.str ("%" ++ "data" ++ "%"))) :=
  ⟨(c7_filter_operator_shapes { minEmployees := some 1, maxEmployees := some 5, nameLike := some "tech" }
      { minSalary := some 150, hasEquity := JSVal.undefined, titleLike := some "data" }).1 1 rfl,
   (c7_filter_operator_shapes { minEmployees := some 1, maxEmployees := some 5, nameLike := some "tech" }
      { minSalary := some 150, hasEquity := JSVal.undefined, titleLike := some "data" }).2.1 5 rfl,
   (c7_filter_operator_shapes { minEmployees := some 1, maxEmployees := some 5, nameLike := some "tech" }
      { minSalary := some 150, hasEquity := JSVal.undefined, titleLike := some "data" }).2.2.1 "tech" rfl,
   (c7_filter_operator_shapes { minEmployees := some 1, maxEmployees := some 5, nameLike := some "tech" }
      { minSalary := some 150, hasEquity := JSVal.undefined, titleLike := some "data" }).2.2.2.1 150 rfl,
   (c7_filter_operator_shapes { minEmployees := some 1, maxEmployees := some 5, nameLike := some "tech" }
      { minSalary := some 150, hasEquity := JSVal.undefined, titleLike := some "data" }).2.2.2.2 "data" rfl⟩

set_option maxRecDepth 40000 in
/-- C8: both `create` methods raise `BadRequestError` exactly when the
duplicate check (by handle for companies, by title plus company handle
for jobs) returns a row, and otherwise issue the `INSERT`; but the
`INSERT` text of `Job.create` carries a stray double quote after
`company_handle` in its `RETURNING` list (an odd number of `"` characters,
i.e. an unterminated quoted identifier), so the insert-and-return-record
half of the claim fails for jobs — the store rejects the statement, while
`Company.create`'s quoting is balanced. -/
theorem c8_create_dup_check_and_malformed_job_insert :
    Job.dupCheckCall (JSVal.str "New") (JSVal.str "c1") =
      ("SELECT title, company_handle\n           FROM jobs\n           WHERE title = $1 AND company_handle = $2",
       [JSVal.str "New", JSVal.str "c1"]) ∧
    Company.dupCheckCall (JSVal.str "c1") =
      ("SELECT handle\n           FROM companies\n           WHERE handle = $1", [JSVal.str "c1"]) ∧
    Job.create (JSVal.str "New") (JSVal.num 100) (JSVal.num 0) (JSVal.str "c1") [()] =
      Except.error JSError.badRequest ∧
    Job.create (JSVal.str "New") (JSVal.num 100) (JSVal.num 0) (JSVal.str "c1") [] =
      Except.ok { sql := Job.insertSql,
                  params := [JSVal.str "New", JSVal.num 100, JSVal.num 0, JSVal.str "c1"] } ∧
    Company.create (JSVal.str "c1") (JSVal.str "C1") (JSVal.str "Desc") (JSVal.num 3) (JSVal.str "u") [()] =
      Except.error JSError.badRequest ∧
    Company.create (JSVal.str "c1") (JSVal.str "C1") (JSVal.str "Desc") (JSVal.num 3) (JSVal.str "u") [] =
      Except.ok { sql := Company.insertSql,
                  params := [JSVal.str "c1", JSVal.str "C1", JSVal.str "Desc", JSVal.num 3, JSVal.str "u"] } ∧
    countChar '"' Job.insertSql = 1 ∧
    countChar '"' Company.insertSql = 4 :=
  ⟨rfl, rfl, rfl, rfl, rfl, rfl, by decide, by decide⟩

/-- C9: `parseBool` is a total function returning `true` exactly on the
strings `"true"` and `"1"`, `false` exactly on `"false"` and `"0"`, and
`null` on everything else, including the empty string, the numbers 1 and
0, and `undefined`. -/
theorem c9_parseBool_trichotomy (v : JSVal) :
    parseBool (JSVal.str "true") = some true ∧
    parseBool (JSVal.str "1") = some true ∧
    parseBool (JSVal.str "false") = some false ∧
    parseBool (JSVal.str "0") = some false ∧
    parseBool (JSVal.str "") = none ∧
    parseBool (JSVal.str "yes") = none ∧
    parseBool (JSVal.num 1) = none ∧
    parseBool (JSVal.num 0) = none ∧
    parseBool JSVal.undefined = none ∧
    (v ≠ JSVal.str "true" → v ≠ JSVal.str "1" → v ≠ JSVal.str "false" →
      v ≠ JSVal.str "0" → parseBool v = none) := by
  refine ⟨rfl, rfl, rfl, rfl, rfl, rfl, rfl, rfl, rfl, ?_⟩
  intro h1 h2 h3 h4
  unfold parseBool
  rw [if_neg (by simp [h1, h2]), if_neg (by simp [h3, h4])]

/-- C9 witness: the trichotomy applied at `null`, discharging the
disequality hypotheses there. -/
theorem c9_parseBool_trichotomy_witness :
    parseBool (JSVal.str "true") = some true ∧
    parseBool (JSVal.str "0") = some false ∧
    parseBool JSVal.null = none :=
  ⟨(c9_parseBool_trichotomy JSVal.null).1,
   (c9_parseBool_trichotomy JSVal.null).2.2.2.1,
   (c9_parseBool_trichotomy JSVal.null).2.2.2.2.2.2.2.2.2
     (by decide) (by decide) (by decide) (by decide)⟩

set_option maxRecDepth 40000 in
/-- C10: the `equity > 0` predicate is emitted exactly when `hasEquity`
is neither `undefined` nor the boolean `false`; in particular `null`,
the number 0, the empty string and the string `"false"` all cause it to
be emitted. -/
theorem c10_equity_flag_truthiness (ms : Option Int) (tl : Option String) (v : JSVal) :
    ("equity > 0" ∈
        (Job.findAllQuery { minSalary := ms, hasEquity := v, titleLike := tl }).whereExpressions
      ↔ (v ≠ JSVal.undefined ∧ v ≠ JSVal.bool false)) ∧
    "equity > 0" ∈
      (Job.findAllQuery { minSalary := ms, hasEquity := JSVal.null, titleLike := tl }).whereExpressions ∧
    "equity > 0" ∈
      (Job.findAllQuery { minSalary := ms, hasEquity := JSVal.num 0, titleLike := tl }).whereExpressions ∧
    "equity > 0" ∈
      (Job.findAllQuery { minSalary := ms, hasEquity := JSVal.str "", titleLike := tl }).whereExpressions ∧
    "equity > 0" ∈
      (Job.findAllQuery { minSalary := ms, hasEquity := JSVal.str "false", titleLike := tl }).whereExpressions ∧
    ¬ "equity > 0" ∈
      (Job.findAllQuery { minSalary := ms, hasEquity := JSVal.undefined, titleLike := tl }).whereExpressions ∧
    ¬ "equity > 0" ∈
      (Job.findAllQuery { minSalary := ms, hasEquity := JSVal.bool false, titleLike := tl }).whereExpressions := by
  refine ⟨?_, ?_, ?_, ?_, ?_, ?_, ?_⟩ <;>
    cases ms <;> cases tl <;> (try rcases v with _ | _ | b | n | s) <;> (try cases b) <;>
      (simp only [Job.findAllQuery]; simp) <;> decide

end Jobly
